import Mathlib

/-!
Verification of the credtech segment aggregation / KPI pipeline.

Shallow embedding of the core ETL logic of this repository:

* `scripts/pipeline_bronze_to_silver_scr.py` — the Row Cleaner
  (`processar_bronze_to_silver_local`): numeric exposure fields are parsed
  from strings with thousands-dot stripping and comma-decimal replacement
  (`str.replace('.', '')` then `str.replace(',', '.')`, then
  `pd.to_numeric(errors='coerce')`); unparsable values coerce to null and
  the row is retained; two per-row ratios are derived with a
  division-by-zero guard.
* `scripts/pipeline_silver_to_gold_scr.py` — the Segment Aggregator and
  KPI Recalculator (`processar_silver_to_gold`): `groupby` on the
  8-field key with summed exposures, averaged row-level rates and counts,
  then final KPIs recomputed from the summed fields and clipped to [0,1].
* `scripts/pipeline_gold_clustering.py` — the Clustering Stage
  (`__main__`): empty-input checks, `dropna` on the selected numeric
  features, k-means labels, two sequential `save_to_db` replace-writes
  (segment assignments, then cluster profiles with categorical modes via
  `x.mode()[0]`).

Pandas floats are modelled as exact rationals (`ℚ`), nullable float
columns as `Option ℚ`.  The pandas groupby/sum skips nulls (`skipna`),
modelled by `Option.getD 0` inside the sums.
-/

namespace CredTech

/-! ## KPI Recalculator (pipeline_silver_to_gold_scr.py, lines 88-116)

One aggregated row of `df_segmentos_agregados`, as produced by the
`groupby(...).agg(...)` call.  Key fields are irrelevant to the KPI
computation and kept abstract here (see `SegKey` below for the aggregator).
-/

/-- One aggregated segment row (`df_segmentos_agregados`): the four summed
exposure fields, the two averaged row-level rates and the two counts, as
named in the `agg(...)` call of `processar_silver_to_gold`. -/
structure Segment where
  total_carteira_ativa_segmento : ℚ
  total_vencido_15d_segmento : ℚ
  total_inadimplida_arrastada_segmento : ℚ
  total_ativo_problematico_segmento : ℚ
  media_taxa_inadimplencia_original : ℚ
  media_perc_ativo_problematico_original : ℚ
  contagem_clientes_unicos_segmento : ℕ
  contagem_subsegmentos : ℕ
deriving DecidableEq

/-- Pandas `Series.clip(lower=0.0, upper=1.0)` on one value. -/
def clip01 (x : ℚ) : ℚ := min 1 (max 0 x)

/-- The unclipped `taxa_inadimplencia_final_segmento` column: the lambda of
lines 103-106, `(vencido + arrastada) / carteira if carteira > 0 else 0`.
The `.fillna(0)` of the source is a no-op in the exact-rational model
because the groupby sums are never null (pandas sums skip nulls). -/
def taxa_inadimplencia_pre_clip (s : Segment) : ℚ :=
  if s.total_carteira_ativa_segmento > 0 then
    (s.total_vencido_15d_segmento + s.total_inadimplida_arrastada_segmento)
      / s.total_carteira_ativa_segmento
  else 0

/-- The final `taxa_inadimplencia_final_segmento` column after the
`.clip(lower=0.0, upper=1.0)` of line 108. -/
def taxa_inadimplencia_final_segmento (s : Segment) : ℚ :=
  clip01 (taxa_inadimplencia_pre_clip s)

/-- The unclipped `perc_ativo_problematico_final_segmento` column: the
lambda of lines 111-114. -/
def perc_ativo_problematico_pre_clip (s : Segment) : ℚ :=
  if s.total_carteira_ativa_segmento > 0 then
    s.total_ativo_problematico_segmento / s.total_carteira_ativa_segmento
  else 0

/-- The final `perc_ativo_problematico_final_segmento` column after the
`.clip(lower=0.0, upper=1.0)` of line 116. -/
def perc_ativo_problematico_final_segmento (s : Segment) : ℚ :=
  clip01 (perc_ativo_problematico_pre_clip s)

/-- The per-row log records emitted by the KPI recomputation block
(lines 101-116 of `processar_silver_to_gold`).  The source contains no
logging call in that block — the `.clip` is silent — so the list of
clamp-related log events is empty for every row. -/
def clamp_log_events (_s : Segment) : List String := []

/-! ## Row Cleaner (pipeline_bronze_to_silver_scr.py, lines 94-113)

The numeric exposure columns arrive as strings.  Line 97-98 of the source:

  temp = df[col].astype(str).str.replace('.', '', regex=False)
                            .str.replace(',', '.', regex=False)
  df[col] = pd.to_numeric(temp, errors='coerce')

Both replacements are literal single-character substitutions, modelled on
the character list of the string.  `pd.to_numeric(errors='coerce')` parses
an optionally signed decimal numeral and yields null on failure; the
decimal grammar (sign, digits, at most one dot) is modelled exactly, and
exotic pandas extensions (exponent notation, inf) that never occur in the
SCR extracts are not modelled. -/

/-- `str.replace('.', '', regex=False)`: drop every dot character. -/
def stripDots (cs : List Char) : List Char := cs.filter (fun c => c != '.')

/-- `str.replace(',', '.', regex=False)`: the decimal comma becomes a dot. -/
def commaToDot (cs : List Char) : List Char :=
  cs.map (fun c => if c = ',' then '.' else c)

/-- Split a character list into the chunks separated by dots. -/
def splitDot (cs : List Char) : List (List Char) :=
  cs.foldr
    (fun c acc =>
      match acc with
      | [] => if c = '.' then [[], []] else [[c]]
      | p :: ps => if c = '.' then [] :: p :: ps else (c :: p) :: ps)
    [[]]

/-- Numeric value of a digit character. -/
def digitVal (c : Char) : ℕ := c.toNat - 48

/-- Value of a digit string read left to right. -/
def digitsToNat (cs : List Char) : ℕ :=
  cs.foldl (fun a c => a * 10 + digitVal c) 0

/-- Decimal-numeral parser behind `pd.to_numeric(errors='coerce')`:
optional sign, then digits with at most one decimal dot; anything else
coerces to null. -/
def parseDecimal (cs : List Char) : Option ℚ :=
  let signAndBody : Bool × List Char :=
    match cs with
    | '-' :: rest => (true, rest)
    | '+' :: rest => (false, rest)
    | _ => (false, cs)
  let neg := signAndBody.1
  let body := signAndBody.2
  match splitDot body with
  | [intPart] =>
      if intPart ≠ [] ∧ intPart.all (fun c => c.isDigit) then
        some ((if neg then -1 else 1) * (digitsToNat intPart : ℚ))
      else none
  | [intPart, fracPart] =>
      if (intPart ≠ [] ∨ fracPart ≠ []) ∧ intPart.all (fun c => c.isDigit)
          ∧ fracPart.all (fun c => c.isDigit) then
        some ((if neg then -1 else 1) *
          ((digitsToNat intPart : ℚ) +
            (digitsToNat fracPart : ℚ) / (10 : ℚ) ^ fracPart.length))
      else none
  | _ => none

/-- The whole cleaning of one numeric exposure cell (source lines 96-98):
strip thousands dots, turn the decimal comma into a dot, parse; an
unparsable cell becomes null (`none`), never zero. -/
def cleanExposureField (s : String) : Option ℚ :=
  parseDecimal (commaToDot (stripDots s.data))

/-- One raw row restricted to the ten numeric exposure columns cleaned by
the loop over `colunas_scr_valor_para_limpar` (all cells are strings in
the bronze CSV).  The categorical/date columns are untouched by the
claims about the cleaner and are carried by the aggregator model below. -/
structure RawRow where
  a_vencer_ate_90_dias : String
  a_vencer_de_91_ate_360_dias : String
  a_vencer_de_361_ate_1080_dias : String
  a_vencer_de_1081_ate_1800_dias : String
  a_vencer_de_1801_ate_5400_dias : String
  a_vencer_acima_de_5400_dias : String
  vencido_acima_de_15_dias : String
  carteira_ativa : String
  carteira_inadimplida_arrastada : String
  ativo_problematico : String
deriving DecidableEq

/-- The cleaned values of those columns plus the two derived per-row
ratios (`taxa_inadimplencia_segmento`, `perc_ativo_problematico`). -/
structure CleanedValues where
  a_vencer_ate_90_dias : Option ℚ
  a_vencer_de_91_ate_360_dias : Option ℚ
  a_vencer_de_361_ate_1080_dias : Option ℚ
  a_vencer_de_1081_ate_1800_dias : Option ℚ
  a_vencer_de_1801_ate_5400_dias : Option ℚ
  a_vencer_acima_de_5400_dias : Option ℚ
  vencido_acima_de_15_dias : Option ℚ
  carteira_ativa : Option ℚ
  carteira_inadimplida_arrastada : Option ℚ
  ativo_problematico : Option ℚ
  taxa_inadimplencia_segmento : ℚ
  perc_ativo_problematico : ℚ
deriving DecidableEq

/-- The per-row default-rate lambda of source lines 105-108:
`(vencido + arrastada) / carteira if carteira > 0 else 0`, then
`.fillna(0)`.  A null `carteira` makes the comparison false (pandas
`NaN > 0` is false) hence 0; a positive `carteira` with a null numerator
yields null and the `.fillna(0)` turns it into 0. -/
def rowTaxaInadimplencia (ca v arr : Option ℚ) : ℚ :=
  match ca with
  | some c =>
      if c > 0 then
        match v, arr with
        | some v', some a' => (v' + a') / c
        | _, _ => 0
      else 0
  | none => 0

/-- The per-row problem-asset lambda of source lines 110-113, with the
same null semantics. -/
def rowPercAtivoProblematico (ca ap : Option ℚ) : ℚ :=
  match ca with
  | some c =>
      if c > 0 then
        match ap with
        | some p => p / c
        | none => 0
      else 0
  | none => 0

/-- The Row Cleaner on one row.  It is a total function: the script drops
no row — every raw row yields a cleaned row (rows are only ever skipped
at whole-file granularity, in the outer try/except). -/
def cleanRow (r : RawRow) : CleanedValues :=
  let ca := cleanExposureField r.carteira_ativa
  let v := cleanExposureField r.vencido_acima_de_15_dias
  let arr := cleanExposureField r.carteira_inadimplida_arrastada
  let ap := cleanExposureField r.ativo_problematico
  { a_vencer_ate_90_dias := cleanExposureField r.a_vencer_ate_90_dias
    a_vencer_de_91_ate_360_dias := cleanExposureField r.a_vencer_de_91_ate_360_dias
    a_vencer_de_361_ate_1080_dias := cleanExposureField r.a_vencer_de_361_ate_1080_dias
    a_vencer_de_1081_ate_1800_dias := cleanExposureField r.a_vencer_de_1081_ate_1800_dias
    a_vencer_de_1801_ate_5400_dias := cleanExposureField r.a_vencer_de_1801_ate_5400_dias
    a_vencer_acima_de_5400_dias := cleanExposureField r.a_vencer_acima_de_5400_dias
    vencido_acima_de_15_dias := v
    carteira_ativa := ca
    carteira_inadimplida_arrastada := arr
    ativo_problematico := ap
    taxa_inadimplencia_segmento := rowTaxaInadimplencia ca v arr
    perc_ativo_problematico := rowPercAtivoProblematico ca ap }

/-! ## Segment Aggregator (pipeline_silver_to_gold_scr.py, lines 50-99)

`colunas_para_agregacao` lists the 8 grouping columns.  A silver-layer row
carries those key columns, the four nullable exposure values (nullable
because `pd.to_numeric(errors='coerce')` may have produced null) and the
two non-null per-row rates.  `data_base` went through
`pd.to_datetime(errors='coerce')`, so it may be null (`NaT`); pandas
`groupby` silently drops rows whose group key is null.  The pandas
`sum` aggregation skips nulls (`skipna`), i.e. a null contributes 0. -/

/-- The 8-field grouping key (`colunas_para_agregacao`); `data_base` is the
normalized date, abstracted as a day number, null when coercion failed. -/
structure SegKey where
  data_base : Option ℤ
  uf : String
  cliente : String
  modalidade : String
  ocupacao : String
  cnae_secao : String
  cnae_subclasse : String
  porte : String
deriving DecidableEq

/-- One silver-layer row as consumed by the aggregator. -/
structure CleanedRecord where
  key : SegKey
  carteira_ativa : Option ℚ
  vencido_acima_de_15_dias : Option ℚ
  carteira_inadimplida_arrastada : Option ℚ
  ativo_problematico : Option ℚ
  taxa_inadimplencia_segmento : ℚ
  perc_ativo_problematico : ℚ
deriving DecidableEq

/-- Pandas column `sum` with the default `skipna`: nulls count as 0. -/
def optSum (l : List (Option ℚ)) : ℚ := (l.map (fun o => o.getD 0)).sum

/-- The rows of one groupby group: all rows whose key equals `k`. -/
def groupAt (rows : List CleanedRecord) (k : SegKey) : List CleanedRecord :=
  rows.filter (fun r => r.key = k)

/-- The aggregated row the `groupby(...).agg(...)` call of lines 88-98
produces for the key `k`: the four sums, the two means, the distinct
`cliente` count (`nunique`) and the row count. -/
def aggregateAt (rows : List CleanedRecord) (k : SegKey) : Segment :=
  let g := groupAt rows k
  { total_carteira_ativa_segmento := optSum (g.map (fun r => r.carteira_ativa))
    total_vencido_15d_segmento := optSum (g.map (fun r => r.vencido_acima_de_15_dias))
    total_inadimplida_arrastada_segmento :=
      optSum (g.map (fun r => r.carteira_inadimplida_arrastada))
    total_ativo_problematico_segmento := optSum (g.map (fun r => r.ativo_problematico))
    media_taxa_inadimplencia_original :=
      (g.map (fun r => r.taxa_inadimplencia_segmento)).sum / (g.length : ℚ)
    media_perc_ativo_problematico_original :=
      (g.map (fun r => r.perc_ativo_problematico)).sum / (g.length : ℚ)
    contagem_clientes_unicos_segmento := (g.map (fun r => r.key.cliente)).dedup.length
    contagem_subsegmentos := g.length }

/-- Rows whose group key is usable: pandas groupby drops rows with a null
key component (`data_base` is the only nullable key column). -/
def validKey (r : CleanedRecord) : Bool := r.key.data_base.isSome

/-- The set of group keys the aggregation produces for the input rows. -/
def segmentKeys (rows : List CleanedRecord) : Finset SegKey :=
  ((rows.filter validKey).map (fun r => r.key)).toFinset

/-! ## Clustering Stage (pipeline_gold_clustering.py, `__main__`)

One gold-table row carries the 7 categorical profiling columns
(`features_for_profiling_categorical`) and the 4 numeric clustering
features (`features_for_clustering_numeric`), the latter nullable.  The
whole `__main__` block, from the empty-input check to the two sequential
`save_to_db` replace-writes, is modelled as one state transition on the
pair of target tables.  The k-means labels (`kmeans.fit_predict`) are an
input to the model: scikit-learn returns, deterministically for a fixed
seed, one label in `[0, K)` per *input sample* (the null-free rows), and
with `n_samples ≥ n_clusters` every one of the `K` labels is used. -/

/-- One row of the gold table `ft_scr_agregado_mensal` restricted to the
columns the clustering stage reads. -/
structure GoldRow where
  uf : String
  cliente : String
  modalidade : String
  ocupacao : String
  porte : String
  cnae_secao : String
  cnae_subclasse : String
  total_carteira_ativa_segmento : Option ℚ
  taxa_inadimplencia_final_segmento : Option ℚ
  perc_ativo_problematico_final_segmento : Option ℚ
  contagem_subsegmentos : Option ℚ
deriving DecidableEq

/-- The `dropna` mask of line 136: true when all four selected numeric
features are non-null. -/
def hasAllFeatures (r : GoldRow) : Bool :=
  r.total_carteira_ativa_segmento.isSome
    && r.taxa_inadimplencia_final_segmento.isSome
    && r.perc_ativo_problematico_final_segmento.isSome
    && r.contagem_subsegmentos.isSome

/-- The distinct values of a string column, in first-occurrence order:
each value appears once, at the position of its first occurrence. -/
def uniqueInOrder : List String → List String
  | [] => []
  | x :: xs => x :: (uniqueInOrder xs).filter (fun y => y != x)

/-- Number of occurrences of the value `v` in the column `xs`. -/
def countIn (xs : List String) (v : String) : ℕ :=
  (xs.filter (fun w => w = v)).length

/-- The highest occurrence count over all values of the column. -/
def maxCount (xs : List String) : ℕ :=
  ((uniqueInOrder xs).map (countIn xs)).foldr max 0

/-- All values attaining the highest count, in first-occurrence order. -/
def modeCandidates (xs : List String) : List String :=
  (uniqueInOrder xs).filter (fun v => countIn xs v = maxCount xs)

/-- Strict code-point lexicographic comparison of character lists: the
order in which pandas sorts python strings. -/
def charListLt : List Char → List Char → Bool
  | [], [] => false
  | [], _ :: _ => true
  | _ :: _, [] => false
  | a :: as, b :: bs => if a = b then charListLt as bs else decide (a.toNat < b.toNat)

/-- Least element of a string list under code-point order. -/
def minString : List String → Option String
  | [] => none
  | x :: xs =>
      some (match minString xs with
        | none => x
        | some m => if charListLt x.data m.data then x else m)

/-- `x.mode()[0]` of source line 177: pandas `Series.mode()` returns the
most frequent values *sorted ascending*, and `[0]` picks the first, i.e.
the smallest most-frequent value; on an empty series the source stores
`None`. -/
def pandasModeHead (xs : List String) : Option String :=
  minString (modeCandidates xs)

/-- Modelled from the formal statement of the tie-break rule in the
documentation (most frequent value, ties broken by first-encountered
value order) for comparison against `pandasModeHead`. -/
def firstEncounteredMode (xs : List String) : Option String :=
  (modeCandidates xs).head?

/-- One row of the profile table `dim_cluster_profiles` restricted to the
claim-relevant columns: the `cluster_id` (line 169: `range(N_CLUSTERS)`)
and the 7 categorical modes.  The numeric centroid columns are opaque
scikit-learn output untouched by the claims and are not modelled. -/
structure ProfileRow where
  cluster_id : ℕ
  uf : Option String
  cliente : Option String
  modalidade : Option String
  ocupacao : Option String
  porte : Option String
  cnae_secao : Option String
  cnae_subclasse : Option String
deriving DecidableEq

/-- The member rows of one cluster: the `groupby('cluster_id')` group. -/
def clusterMembers (assigned : List (GoldRow × ℕ)) (cid : ℕ) : List GoldRow :=
  (assigned.filter (fun p => p.2 = cid)).map (fun p => p.1)

/-- The profile row for one cluster id: the categorical columns hold the
per-column `x.mode()[0]` over the member rows (null when the cluster has
no members — the left-merge of line 185 fills absent groups with null). -/
def profileRowFor (assigned : List (GoldRow × ℕ)) (cid : ℕ) : ProfileRow :=
  { cluster_id := cid
    uf := pandasModeHead ((clusterMembers assigned cid).map (fun r => r.uf))
    cliente := pandasModeHead ((clusterMembers assigned cid).map (fun r => r.cliente))
    modalidade := pandasModeHead ((clusterMembers assigned cid).map (fun r => r.modalidade))
    ocupacao := pandasModeHead ((clusterMembers assigned cid).map (fun r => r.ocupacao))
    porte := pandasModeHead ((clusterMembers assigned cid).map (fun r => r.porte))
    cnae_secao := pandasModeHead ((clusterMembers assigned cid).map (fun r => r.cnae_secao))
    cnae_subclasse :=
      pandasModeHead ((clusterMembers assigned cid).map (fun r => r.cnae_subclasse)) }

/-- The profile construction of lines 163-187: the numeric frame has one
row per `cluster_id` in `range(K)`; the categorical modes are computed
per cluster over the member rows and merged with `how='left'`. -/
def profileRows (K : ℕ) (assigned : List (GoldRow × ℕ)) : List ProfileRow :=
  (List.range K).map (profileRowFor assigned)

/-- The two destination tables of the stage: `ft_scr_segmentos_clusters`
(the gold rows plus their `cluster_id` column) and
`dim_cluster_profiles`. -/
structure DB where
  ft_scr_segmentos_clusters : List (GoldRow × ℕ)
  dim_cluster_profiles : List ProfileRow
deriving DecidableEq

/-- Outcome of one run of the `__main__` block: normal completion or a
hard failure (`exit(1)` or an uncaught exception), each with the state
the two tables are left in. -/
inductive RunResult where
  | ok (db : DB)
  | err (db : DB)
deriving DecidableEq

/-- The `__main__` block of `pipeline_gold_clustering.py` as a transition
on the two target tables.

* `labels` is the scikit-learn `kmeans.fit_predict` output on the
  null-free feature rows (deterministic for the fixed seed of line 150);
* `profileSaveFails` injects a database failure into the second
  `save_to_db` call (line 191), whose except-handler calls `exit(1)`.

Checks, in source order: the empty-`df_gold` check (line 106), the
empty-after-`dropna` check (line 139), the scikit-learn `ValueError`
when the sample count is below `n_clusters` (line 151, `fit_predict`),
and the pandas length-mismatch `ValueError` when the label array is
assigned to the `df_gold` column although `dropna` removed rows
(line 151, `df_gold['cluster_id'] = ...`).  Each aborts the run before
any write.  Then the assignment table is replaced (line 157) and, in a
separate second write, the profile table (line 191). -/
def runClustering (K : ℕ) (labels : List (Fin K)) (profileSaveFails : Bool)
    (df : List GoldRow) (db : DB) : RunResult :=
  if df.isEmpty then .err db
  else if (df.filter hasAllFeatures).isEmpty then .err db
  else if (df.filter hasAllFeatures).length < K then .err db
  else if (df.filter hasAllFeatures).length ≠ df.length then .err db
  else if profileSaveFails then
    .err { db with ft_scr_segmentos_clusters := df.zip (labels.map Fin.val) }
  else
    .ok { db with
          ft_scr_segmentos_clusters := df.zip (labels.map Fin.val)
          dim_cluster_profiles := profileRows K (df.zip (labels.map Fin.val)) }

/-! ## Theorems about the KPI Recalculator -/

/-- Helper: the clip keeps any value already in `[0, 1]` and sends the
guard value 0 to 0. -/
theorem clip01_zero : clip01 0 = 0 := by
  simp [clip01]

theorem clip01_nonneg (x : ℚ) : 0 ≤ clip01 x :=
  le_min zero_le_one (le_max_left 0 x)

theorem clip01_le_one (x : ℚ) : clip01 x ≤ 1 :=
  min_le_left 1 (max 0 x)

theorem clip01_of_one_le {x : ℚ} (h : 1 ≤ x) : clip01 x = 1 :=
  min_eq_left (le_max_of_le_right h)

theorem clip01_of_nonpos {x : ℚ} (h : x ≤ 0) : clip01 x = 0 := by
  rw [clip01, max_eq_left h, min_eq_right zero_le_one]

/-- C1: the KPI recalculator derives `final_default_rate` as
`clamp((sum_overdue15 + sum_dragged_default) / sum_active_balance, 0, 1)`
when `sum_active_balance > 0` and as 0 otherwise, and analogously
`final_problem_asset_rate` from `sum_problem_assets`; both are functions
of the four summed fields alone, never of the averaged row-level rates
(two segments agreeing on the sums but differing in the mean columns get
identical KPIs). -/
theorem kpi_recomputed_from_sums (s : Segment) :
    (s.total_carteira_ativa_segmento > 0 →
      taxa_inadimplencia_final_segmento s =
        clip01 ((s.total_vencido_15d_segmento + s.total_inadimplida_arrastada_segmento)
          / s.total_carteira_ativa_segmento) ∧
      perc_ativo_problematico_final_segmento s =
        clip01 (s.total_ativo_problematico_segmento / s.total_carteira_ativa_segmento)) ∧
    (¬ s.total_carteira_ativa_segmento > 0 →
      taxa_inadimplencia_final_segmento s = 0 ∧
      perc_ativo_problematico_final_segmento s = 0) ∧
    (∀ t : Segment,
      s.total_carteira_ativa_segmento = t.total_carteira_ativa_segmento →
      s.total_vencido_15d_segmento = t.total_vencido_15d_segmento →
      s.total_inadimplida_arrastada_segmento = t.total_inadimplida_arrastada_segmento →
      s.total_ativo_problematico_segmento = t.total_ativo_problematico_segmento →
      taxa_inadimplencia_final_segmento s = taxa_inadimplencia_final_segmento t ∧
      perc_ativo_problematico_final_segmento s = perc_ativo_problematico_final_segmento t) := by
  refine ⟨fun h => ?_, fun h => ?_, fun t h1 h2 h3 h4 => ?_⟩
  · constructor <;>
      simp [taxa_inadimplencia_final_segmento, taxa_inadimplencia_pre_clip,
        perc_ativo_problematico_final_segmento, perc_ativo_problematico_pre_clip, h]
  · constructor <;>
      simp [taxa_inadimplencia_final_segmento, taxa_inadimplencia_pre_clip,
        perc_ativo_problematico_final_segmento, perc_ativo_problematico_pre_clip, h,
        clip01_zero]
  · constructor <;>
      simp [taxa_inadimplencia_final_segmento, taxa_inadimplencia_pre_clip,
        perc_ativo_problematico_final_segmento, perc_ativo_problematico_pre_clip,
        h1, h2, h3, h4]

/-- The aggregated segment of end-to-end scenario A: three pooled rows
with balances 100, 200, 300 and overdue15 amounts 5, 0, 30. -/
def segScenarioA : Segment :=
  { total_carteira_ativa_segmento := 600
    total_vencido_15d_segmento := 35
    total_inadimplida_arrastada_segmento := 0
    total_ativo_problematico_segmento := 20
    media_taxa_inadimplencia_original := 1/20
    media_perc_ativo_problematico_original := 0
    contagem_clientes_unicos_segmento := 1
    contagem_subsegmentos := 3 }

/-- C1 witness: on scenario A the positive-balance branch applies and the
final default rate evaluates to 35/600 = 7/120. -/
theorem kpi_recomputed_from_sums_witness :
    segScenarioA.total_carteira_ativa_segmento > 0 ∧
    taxa_inadimplencia_final_segmento segScenarioA =
      clip01 ((segScenarioA.total_vencido_15d_segmento
        + segScenarioA.total_inadimplida_arrastada_segmento)
          / segScenarioA.total_carteira_ativa_segmento) ∧
    taxa_inadimplencia_final_segmento segScenarioA = 7/120 := by
  have h : segScenarioA.total_carteira_ativa_segmento > 0 := by norm_num [segScenarioA]
  refine ⟨h, ((kpi_recomputed_from_sums segScenarioA).1 h).1, ?_⟩
  have h2 := ((kpi_recomputed_from_sums segScenarioA).1 h).1
  rw [h2]
  norm_num [segScenarioA, clip01]

/-- C2: a segment whose `sum_active_balance` is 0 gets both final KPIs
equal to exactly 0 — the division is never evaluated (the guard takes
the else-branch), so no NaN or infinity can arise in the stored value. -/
theorem zero_balance_guard (s : Segment)
    (h : s.total_carteira_ativa_segmento = 0) :
    taxa_inadimplencia_final_segmento s = 0 ∧
    perc_ativo_problematico_final_segmento s = 0 := by
  constructor <;>
    simp [taxa_inadimplencia_final_segmento, taxa_inadimplencia_pre_clip,
      perc_ativo_problematico_final_segmento, perc_ativo_problematico_pre_clip, h,
      clip01_zero]

/-- The segment of end-to-end scenario B: zero balance yet a positive
overdue amount. -/
def segScenarioB : Segment :=
  { total_carteira_ativa_segmento := 0
    total_vencido_15d_segmento := 10
    total_inadimplida_arrastada_segmento := 0
    total_ativo_problematico_segmento := 0
    media_taxa_inadimplencia_original := 0
    media_perc_ativo_problematico_original := 0
    contagem_clientes_unicos_segmento := 1
    contagem_subsegmentos := 1 }

/-- C2 witness: scenario B has zero balance and both KPIs evaluate to 0. -/
theorem zero_balance_guard_witness :
    segScenarioB.total_carteira_ativa_segmento = 0 ∧
    taxa_inadimplencia_final_segmento segScenarioB = 0 ∧
    perc_ativo_problematico_final_segmento segScenarioB = 0 := by
  have h : segScenarioB.total_carteira_ativa_segmento = 0 := by norm_num [segScenarioB]
  exact ⟨h, (zero_balance_guard segScenarioB h).1, (zero_balance_guard segScenarioB h).2⟩

/-- C3: for every segment input, whatever the raw sums (including ones
giving a raw ratio above 1 or below 0), both final KPIs lie in `[0, 1]`. -/
theorem kpi_clamp_law (s : Segment) :
    0 ≤ taxa_inadimplencia_final_segmento s ∧
    taxa_inadimplencia_final_segmento s ≤ 1 ∧
    0 ≤ perc_ativo_problematico_final_segmento s ∧
    perc_ativo_problematico_final_segmento s ≤ 1 :=
  ⟨clip01_nonneg _, clip01_le_one _, clip01_nonneg _, clip01_le_one _⟩

/-- The malformed segment of end-to-end scenario D: raw ratio 137/100
before clamping (and the same for the problem-asset ratio). -/
def segScenarioD : Segment :=
  { total_carteira_ativa_segmento := 100
    total_vencido_15d_segmento := 137
    total_inadimplida_arrastada_segmento := 0
    total_ativo_problematico_segmento := 137
    media_taxa_inadimplencia_original := 137/100
    media_perc_ativo_problematico_original := 137/100
    contagem_clientes_unicos_segmento := 1
    contagem_subsegmentos := 1 }

/-- C9 counterexample: on scenario D the pre-clamp ratio is 1.37, the
stored value is exactly 1, yet the recalculation block emits no log
record at all — the `.clip` of the source is silent, so no warning is
logged although the clamp changed the value by 0.37. -/
theorem clamp_warning_counterexample :
    taxa_inadimplencia_pre_clip segScenarioD = 137/100 ∧
    taxa_inadimplencia_final_segmento segScenarioD = 1 ∧
    clamp_log_events segScenarioD = [] := by
  refine ⟨?_, ?_, rfl⟩
  · norm_num [taxa_inadimplencia_pre_clip, segScenarioD]
  · have h : taxa_inadimplencia_pre_clip segScenarioD = 137/100 := by
      norm_num [taxa_inadimplencia_pre_clip, segScenarioD]
    rw [taxa_inadimplencia_final_segmento, h]
    exact clip01_of_one_le (by norm_num)

/-- C9 amended: whenever clamping actually changes the value of either
KPI — a raw ratio above 1 or below 0, on either of the two KPIs
independently — the clamped value is stored, not rejected: each final
column is exactly the clip of its raw ratio, a ratio above 1 is stored
as exactly 1, a negative ratio as exactly 0; but no warning is logged —
the recalculation block emits no log record whatever the size of the
change. -/
theorem clamp_is_silent (s : Segment)
    (_h : clip01 (taxa_inadimplencia_pre_clip s) ≠ taxa_inadimplencia_pre_clip s
       ∨ clip01 (perc_ativo_problematico_pre_clip s)
           ≠ perc_ativo_problematico_pre_clip s) :
    taxa_inadimplencia_final_segmento s = clip01 (taxa_inadimplencia_pre_clip s) ∧
    perc_ativo_problematico_final_segmento s
      = clip01 (perc_ativo_problematico_pre_clip s) ∧
    (1 < taxa_inadimplencia_pre_clip s → taxa_inadimplencia_final_segmento s = 1) ∧
    (taxa_inadimplencia_pre_clip s < 0 → taxa_inadimplencia_final_segmento s = 0) ∧
    (1 < perc_ativo_problematico_pre_clip s →
      perc_ativo_problematico_final_segmento s = 1) ∧
    (perc_ativo_problematico_pre_clip s < 0 →
      perc_ativo_problematico_final_segmento s = 0) ∧
    clamp_log_events s = [] := by
  refine ⟨rfl, rfl, fun h3 => ?_, fun h4 => ?_, fun h5 => ?_, fun h6 => ?_, rfl⟩
  · rw [taxa_inadimplencia_final_segmento]
    exact clip01_of_one_le (le_of_lt h3)
  · rw [taxa_inadimplencia_final_segmento]
    exact clip01_of_nonpos (le_of_lt h4)
  · rw [perc_ativo_problematico_final_segmento]
    exact clip01_of_one_le (le_of_lt h5)
  · rw [perc_ativo_problematico_final_segmento]
    exact clip01_of_nonpos (le_of_lt h6)

/-- A malformed segment whose two raw ratios are negative (-2/5 and
-1/2), reaching the lower clamp on both KPIs. -/
def segLowerClamp : Segment :=
  { total_carteira_ativa_segmento := 100
    total_vencido_15d_segmento := -40
    total_inadimplida_arrastada_segmento := 0
    total_ativo_problematico_segmento := -50
    media_taxa_inadimplencia_original := 0
    media_perc_ativo_problematico_original := 0
    contagem_clientes_unicos_segmento := 1
    contagem_subsegmentos := 1 }

/-- C9 amended witness: scenario D (both ratios 1.37) stores exactly 1
for both KPIs, the negative-ratio segment stores exactly 0 for both, and
in both runs the log stays empty. -/
theorem clamp_is_silent_witness :
    (taxa_inadimplencia_final_segmento segScenarioD = 1 ∧
     perc_ativo_problematico_final_segmento segScenarioD = 1 ∧
     clamp_log_events segScenarioD = []) ∧
    (taxa_inadimplencia_final_segmento segLowerClamp = 0 ∧
     perc_ativo_problematico_final_segmento segLowerClamp = 0 ∧
     clamp_log_events segLowerClamp = []) := by
  have hD := clamp_is_silent segScenarioD
    (Or.inl (by norm_num [clip01, taxa_inadimplencia_pre_clip, segScenarioD]))
  have hL := clamp_is_silent segLowerClamp
    (Or.inl (by norm_num [clip01, taxa_inadimplencia_pre_clip, segLowerClamp]))
  refine ⟨⟨?_, ?_, hD.2.2.2.2.2.2⟩, ⟨?_, ?_, hL.2.2.2.2.2.2⟩⟩
  · exact hD.2.2.1 (by norm_num [taxa_inadimplencia_pre_clip, segScenarioD])
  · exact hD.2.2.2.2.1 (by norm_num [perc_ativo_problematico_pre_clip, segScenarioD])
  · exact hL.2.2.2.1 (by norm_num [taxa_inadimplencia_pre_clip, segLowerClamp])
  · exact hL.2.2.2.2.2.1 (by norm_num [perc_ativo_problematico_pre_clip, segLowerClamp])

/-! ## Theorems about the Segment Aggregator -/

/-- C4: the aggregation is a pure function of the input row *set*: in this
embedding re-running it on the same rows is the same function application
(determinism is definitional), and the theorem states the substantive
half — for any permutation of the input rows, the produced key set is
identical and every key gets identical sums, means and counts. -/
theorem aggregation_order_invariant (l₁ l₂ : List CleanedRecord) (h : l₁.Perm l₂) :
    segmentKeys l₁ = segmentKeys l₂ ∧
    ∀ k : SegKey, aggregateAt l₁ k = aggregateAt l₂ k := by
  constructor
  · ext a
    simp only [segmentKeys, List.mem_toFinset, List.mem_map]
    constructor <;> rintro ⟨r, hr, rfl⟩
    · exact ⟨r, (h.filter validKey).mem_iff.mp hr, rfl⟩
    · exact ⟨r, (h.filter validKey).mem_iff.mpr hr, rfl⟩
  · intro k
    have hg : (groupAt l₁ k).Perm (groupAt l₂ k) := h.filter _
    have hlen : (groupAt l₁ k).length = (groupAt l₂ k).length := hg.length_eq
    have hsum : ∀ f : CleanedRecord → Option ℚ,
        optSum ((groupAt l₁ k).map f) = optSum ((groupAt l₂ k).map f) :=
      fun f => by
        simp only [optSum]
        exact ((hg.map f).map (fun o => o.getD 0)).sum_eq
    have hqsum : ∀ f : CleanedRecord → ℚ,
        ((groupAt l₁ k).map f).sum = ((groupAt l₂ k).map f).sum :=
      fun f => (hg.map f).sum_eq
    have hded : ((groupAt l₁ k).map (fun r => r.key.cliente)).dedup.length
        = ((groupAt l₂ k).map (fun r => r.key.cliente)).dedup.length :=
      ((hg.map (fun r => r.key.cliente)).dedup).length_eq
    simp only [aggregateAt, Segment.mk.injEq]
    exact ⟨hsum _, hsum _, hsum _, hsum _,
      by rw [hqsum _, hlen], by rw [hqsum _, hlen], hded, hlen⟩

/-- A concrete 8-field key for the C4 witness. -/
def keyW : SegKey :=
  { data_base := some 20240101
    uf := "SP"
    cliente := "PF"
    modalidade := "credito pessoal"
    ocupacao := "assalariado"
    cnae_secao := "-"
    cnae_subclasse := "-"
    porte := "ate 1 sm" }

/-- First concrete cleaned row for the C4 witness. -/
def recW1 : CleanedRecord :=
  { key := keyW
    carteira_ativa := some 100
    vencido_acima_de_15_dias := some 5
    carteira_inadimplida_arrastada := some 0
    ativo_problematico := some 0
    taxa_inadimplencia_segmento := 0
    perc_ativo_problematico := 0 }

/-- Second concrete cleaned row for the C4 witness: same key, a null
exposure cell. -/
def recW2 : CleanedRecord :=
  { key := keyW
    carteira_ativa := some 200
    vencido_acima_de_15_dias := none
    carteira_inadimplida_arrastada := some 0
    ativo_problematico := some 30
    taxa_inadimplencia_segmento := 0
    perc_ativo_problematico := 0 }

/-- C4 witness: swapping two concrete rows changes neither the key set
nor the aggregate at their key. -/
theorem aggregation_order_invariant_witness :
    segmentKeys [recW1, recW2] = segmentKeys [recW2, recW1] ∧
    aggregateAt [recW1, recW2] keyW = aggregateAt [recW2, recW1] keyW :=
  ⟨(aggregation_order_invariant [recW1, recW2] [recW2, recW1] (by decide)).1,
   (aggregation_order_invariant [recW1, recW2] [recW2, recW1] (by decide)).2 keyW⟩

/-! ## Theorems about the Row Cleaner -/

/-- Helper: the bronze cell "-5,00" (decimal comma, negative) parses to
the rational -5 — the cleaning loop applies no sign check. -/
theorem cleanExposureField_neg_example : cleanExposureField "-5,00" = some (-5) := by
  have h1 : commaToDot (stripDots ("-5,00").data) = ['-', '5', '.', '0', '0'] := by decide
  have h3 : parseDecimal ['-', '5', '.', '0', '0'] =
      some ((-1 : ℚ) * ((digitsToNat ['5'] : ℚ)
        + (digitsToNat ['0', '0'] : ℚ) / (10 : ℚ) ^ (2 : ℕ))) := rfl
  have h4 : digitsToNat ['5'] = 5 := by decide
  have h5 : digitsToNat ['0', '0'] = 0 := by decide
  rw [cleanExposureField, h1, h3, h4, h5]
  norm_num

/-- A raw row whose `carteira_ativa` cell holds the negative amount
"-5,00"; every other cell is a plain "0". -/
def rawRowNegative : RawRow :=
  { a_vencer_ate_90_dias := "0"
    a_vencer_de_91_ate_360_dias := "0"
    a_vencer_de_361_ate_1080_dias := "0"
    a_vencer_de_1081_ate_1800_dias := "0"
    a_vencer_de_1801_ate_5400_dias := "0"
    a_vencer_acima_de_5400_dias := "0"
    vencido_acima_de_15_dias := "0"
    carteira_ativa := "-5,00"
    carteira_inadimplida_arrastada := "0"
    ativo_problematico := "0" }

/-- C8 counterexample: the cleaner retains the row carrying the raw cell
"-5,00" and stores the *negative* exposure amount -5 in the cleaned
record — nothing in the cleaning loop (source lines 96-98) enforces
non-negativity, refuting the non-negativity half of the claim. -/
theorem cleaner_negative_exposure_counterexample :
    (cleanRow rawRowNegative).carteira_ativa = some (-5) ∧ ((-5 : ℚ) < 0) := by
  constructor
  · show cleanExposureField "-5,00" = some (-5)
    exact cleanExposureField_neg_example
  · norm_num

/-- C8 amended: an unparsable numeric exposure cell becomes null in the
cleaned record — not zero — and the row itself is retained (the cleaner
is a total function; every other exposure field keeps exactly its own
parse result).  Exposure amounts are however *not* guaranteed
non-negative: a parsable negative cell is stored as a negative value
(see the counterexample). -/
theorem cleaner_unparsable_becomes_null (raw : RawRow)
    (h : cleanExposureField raw.carteira_ativa = none) :
    (cleanRow raw).carteira_ativa = none ∧
    (cleanRow raw).carteira_ativa ≠ some 0 ∧
    (cleanRow raw).vencido_acima_de_15_dias
      = cleanExposureField raw.vencido_acima_de_15_dias ∧
    (cleanRow raw).carteira_inadimplida_arrastada
      = cleanExposureField raw.carteira_inadimplida_arrastada ∧
    (cleanRow raw).ativo_problematico
      = cleanExposureField raw.ativo_problematico := by
  have h0 : (cleanRow raw).carteira_ativa = none := h
  exact ⟨h0, by simp [h0], rfl, rfl, rfl⟩

/-- A raw row whose `carteira_ativa` cell is the unparsable text "abc". -/
def rawRowUnparsable : RawRow :=
  { a_vencer_ate_90_dias := "0"
    a_vencer_de_91_ate_360_dias := "0"
    a_vencer_de_361_ate_1080_dias := "0"
    a_vencer_de_1081_ate_1800_dias := "0"
    a_vencer_de_1801_ate_5400_dias := "0"
    a_vencer_acima_de_5400_dias := "0"
    vencido_acima_de_15_dias := "10"
    carteira_ativa := "abc"
    carteira_inadimplida_arrastada := "0"
    ativo_problematico := "0" }

/-- C8 amended witness: the concrete unparsable cell "abc" cleans to
null, not zero, and the row survives with its other fields parsed. -/
theorem cleaner_unparsable_becomes_null_witness :
    (cleanRow rawRowUnparsable).carteira_ativa = none ∧
    (cleanRow rawRowUnparsable).carteira_ativa ≠ some 0 ∧
    (cleanRow rawRowUnparsable).vencido_acima_de_15_dias
      = cleanExposureField rawRowUnparsable.vencido_acima_de_15_dias ∧
    (cleanRow rawRowUnparsable).carteira_inadimplida_arrastada
      = cleanExposureField rawRowUnparsable.carteira_inadimplida_arrastada ∧
    (cleanRow rawRowUnparsable).ativo_problematico
      = cleanExposureField rawRowUnparsable.ativo_problematico :=
  cleaner_unparsable_becomes_null rawRowUnparsable (by decide)

/-! ## Theorems about the Clustering Stage -/

/-- C5 amended: the early input checks do fail fast with no write — an
empty input set, or one whose null-free rows number fewer than K, aborts
the run with both tables untouched — but the two table writes are
*sequential*, not atomic: when the profile write fails after the
assignment write succeeded, the run aborts with the assignment table
already replaced while the profile table keeps its prior contents. -/
theorem clustering_failure_semantics (K : ℕ) (labels : List (Fin K)) (b : Bool)
    (df : List GoldRow) (db : DB) :
    (df = [] → runClustering K labels b df db = .err db) ∧
    ((df.filter hasAllFeatures).length < K →
      runClustering K labels b df db = .err db) ∧
    ((df.filter hasAllFeatures).length = df.length →
      K ≤ (df.filter hasAllFeatures).length → 0 < K →
      runClustering K labels true df db =
        .err { ft_scr_segmentos_clusters := df.zip (labels.map Fin.val)
               dim_cluster_profiles := db.dim_cluster_profiles }) := by
  refine ⟨fun h => ?_, fun h => ?_, fun h1 h2 hK => ?_⟩
  · simp [runClustering, h]
  · by_cases hdf : df.isEmpty
    · simp [runClustering, hdf]
    · by_cases hin : (df.filter hasAllFeatures).isEmpty
      · simp [runClustering, hdf, hin]
      · simp [runClustering, hdf, hin, h]
  · have hlen : 0 < df.length := h1 ▸ lt_of_lt_of_le hK h2
    have hdf : df.isEmpty = false := by
      cases df with
      | nil => simp at hlen
      | cons a t => rfl
    have hin : (df.filter hasAllFeatures).isEmpty = false := by
      have : 0 < (df.filter hasAllFeatures).length := lt_of_lt_of_le hK h2
      cases hfl : df.filter hasAllFeatures with
      | nil => rw [hfl] at this; simp at this
      | cons a t => rfl
    have hnotlt : ¬ (df.filter hasAllFeatures).length < K := not_lt.mpr h2
    have hnotlt' : ¬ df.length < K := h1 ▸ hnotlt
    simp [runClustering, hdf, hin, hnotlt, hnotlt', h1]

/-- Concrete gold rows for the clustering theorems: four null-free rows
differing in `uf`, and one row with a null clustering feature. -/
def gRow1 : GoldRow :=
  { uf := "SP", cliente := "PF", modalidade := "m", ocupacao := "o", porte := "p"
    cnae_secao := "-", cnae_subclasse := "-"
    total_carteira_ativa_segmento := some 600
    taxa_inadimplencia_final_segmento := some 0
    perc_ativo_problematico_final_segmento := some 0
    contagem_subsegmentos := some 3 }

def gRow2 : GoldRow := { gRow1 with uf := "RJ" }

def gRow3 : GoldRow := { gRow1 with uf := "MG" }

def gRow4 : GoldRow := { gRow1 with uf := "BA" }

/-- A gold row `dropna` removes: its active-balance feature is null. -/
def gRowNull : GoldRow := { gRow1 with total_carteira_ativa_segmento := none }

/-- The labels scikit-learn would return for four rows and K = 4. -/
def lbl4 : List (Fin 4) := [0, 1, 2, 3]

/-- A prior database state with a recognizable old profile table and an
empty assignment table. -/
def dbPrior : DB :=
  { ft_scr_segmentos_clusters := []
    dim_cluster_profiles :=
      [{ cluster_id := 99, uf := some "OLD", cliente := none, modalidade := none
         ocupacao := none, porte := none, cnae_secao := none, cnae_subclasse := none }] }

/-- C5 counterexample: a run over four valid rows whose *profile* write
fails leaves the assignment table replaced with the new rows while the
profile table still holds its prior contents — the claimed
both-or-neither atomicity is false for the sequential writes of the
source (lines 157 and 191). -/
theorem clustering_partial_write_counterexample :
    runClustering 4 lbl4 true [gRow1, gRow2, gRow3, gRow4] dbPrior =
      .err { ft_scr_segmentos_clusters :=
               [(gRow1, 0), (gRow2, 1), (gRow3, 2), (gRow4, 3)]
             dim_cluster_profiles := dbPrior.dim_cluster_profiles } ∧
    [(gRow1, 0), (gRow2, 1), (gRow3, 2), (gRow4, 3)]
      ≠ dbPrior.ft_scr_segmentos_clusters ∧
    dbPrior.dim_cluster_profiles ≠ [] := by
  refine ⟨by decide, by decide, by decide⟩

/-- C5 witness: the three branches of the amended failure semantics at
concrete inputs — empty input and too-few rows abort with untouched
tables; a failing profile write aborts with only the assignment table
replaced. -/
theorem clustering_failure_semantics_witness :
    runClustering 4 lbl4 false [] dbPrior = .err dbPrior ∧
    runClustering 4 lbl4 false [gRow1] dbPrior = .err dbPrior ∧
    runClustering 4 lbl4 true [gRow1, gRow2, gRow3, gRow4] dbPrior =
      .err { ft_scr_segmentos_clusters :=
               [gRow1, gRow2, gRow3, gRow4].zip (lbl4.map Fin.val)
             dim_cluster_profiles := dbPrior.dim_cluster_profiles } :=
  ⟨(clustering_failure_semantics 4 lbl4 false [] dbPrior).1 rfl,
   (clustering_failure_semantics 4 lbl4 false [gRow1] dbPrior).2.1 (by decide),
   (clustering_failure_semantics 4 lbl4 true [gRow1, gRow2, gRow3, gRow4]
      dbPrior).2.2 (by decide) (by decide) (by decide)⟩

/-- C7: evaluation of the stage at the failing input — four clusterable
rows plus one row with a null feature.  `dropna` leaves 4 rows, so
`fit_predict` yields 4 labels, and the assignment
`df_gold['cluster_id'] = kmeans.fit_predict(...)` (source line 151)
raises the pandas length-mismatch ValueError: the run aborts with no
assignment written, although the documentation promises a cluster id for
every non-dropped segment. -/
theorem clustering_dropped_rows_abort :
    (List.filter hasAllFeatures [gRow1, gRow2, gRow3, gRow4, gRowNull]).length = 4 ∧
    [gRow1, gRow2, gRow3, gRow4, gRowNull].length = 5 ∧
    runClustering 4 lbl4 false [gRow1, gRow2, gRow3, gRow4, gRowNull] dbPrior
      = .err dbPrior := by
  refine ⟨by decide, by decide, by decide⟩

/-- Helper: the profile table always has exactly K rows (the numeric
frame is built over `range(N_CLUSTERS)` and the categorical frame is
left-merged onto it). -/
theorem profileRows_length (K : ℕ) (a : List (GoldRow × ℕ)) :
    (profileRows K a).length = K := by
  simp [profileRows]

/-- Helper: the profile ids are exactly `0, ..., K-1` in order. -/
theorem profileRows_map_clusterId (K : ℕ) (a : List (GoldRow × ℕ)) :
    (profileRows K a).map (fun p => p.cluster_id) = List.range K := by
  simp [profileRows, List.map_map]
  exact List.map_id _

/-- Helper: filtering rows built over a duplicate-free id list on one of
its ids keeps exactly one row. -/
theorem filter_map_range_length (fn : ℕ → ProfileRow)
    (hfn : ∀ x, (fn x).cluster_id = x) :
    ∀ l : List ℕ, l.Nodup → ∀ c ∈ l,
      ((l.map fn).filter (fun p => p.cluster_id = c)).length = 1 := by
  intro l
  induction l with
  | nil => intro _ c hc; simp at hc
  | cons x t ih =>
      intro hnd c hc
      have hndt : t.Nodup := (List.nodup_cons.mp hnd).2
      have hxt : x ∉ t := (List.nodup_cons.mp hnd).1
      rcases List.mem_cons.mp hc with hcx | hct
      · subst hcx
        have hnone : ((t.map fn).filter (fun p => p.cluster_id = c)) = [] := by
          rw [List.filter_eq_nil_iff]
          intro p hp
          rcases List.mem_map.mp hp with ⟨y, hy, rfl⟩
          simp only [hfn y, decide_eq_true_eq]
          exact fun h => hxt (h ▸ hy)
        simp [List.filter_cons, hfn, hnone]
      · have hcx : ¬ (x = c) := fun h => hxt (h ▸ hct)
        simp [List.filter_cons, hfn, hcx, ih hndt c hct]

/-- C6: a *successful* clustering run (given the scikit-learn facts that
`fit_predict` yields one label per sample and, with at least K samples,
uses every one of the K labels) leaves a profile table with exactly K
rows carrying ids `0..K-1`, the number of distinct ids in the assignment
table equals the number of profile rows, and every assigned id matches
exactly one profile row. -/
theorem profile_coverage (K : ℕ) (labels : List (Fin K)) (df : List GoldRow)
    (db db' : DB)
    (hlen : labels.length = df.length)
    (hsurj : ∀ k : Fin K, k ∈ labels)
    (hrun : runClustering K labels false df db = .ok db') :
    db'.dim_cluster_profiles.length = K ∧
    db'.dim_cluster_profiles.map (fun p => p.cluster_id) = List.range K ∧
    (db'.ft_scr_segmentos_clusters.map Prod.snd).toFinset.card
      = db'.dim_cluster_profiles.length ∧
    ∀ r ∈ db'.ft_scr_segmentos_clusters,
      (db'.dim_cluster_profiles.filter (fun p => p.cluster_id = r.2)).length = 1 := by
  unfold runClustering at hrun
  split at hrun
  · exact (RunResult.noConfusion hrun)
  · split at hrun
    · exact (RunResult.noConfusion hrun)
    · split at hrun
      · exact (RunResult.noConfusion hrun)
      · split at hrun
        · exact (RunResult.noConfusion hrun)
        · rw [if_neg (by simp)] at hrun
          injection hrun with hdb
          subst hdb
          have hsnd : (df.zip (labels.map Fin.val)).map Prod.snd
              = labels.map Fin.val :=
            List.map_snd_zip df (labels.map Fin.val)
              (by rw [List.length_map, hlen])
          have hfin : (labels.map Fin.val).toFinset = Finset.range K := by
            ext x
            simp only [List.mem_toFinset, List.mem_map, Finset.mem_range]
            constructor
            · rintro ⟨k, _, rfl⟩; exact k.isLt
            · intro hx; exact ⟨⟨x, hx⟩, hsurj ⟨x, hx⟩, rfl⟩
          refine ⟨profileRows_length K _, profileRows_map_clusterId K _, ?_, ?_⟩
          · simp only [hsnd, hfin, Finset.card_range, profileRows_length]
          · intro r hr
            have h2 : r.2 ∈ labels.map Fin.val := by
              obtain ⟨a, b⟩ := r
              exact (List.of_mem_zip hr).2
            have hrK : r.2 < K := by
              rcases List.mem_map.mp h2 with ⟨k, _, hkr⟩
              exact hkr ▸ k.isLt
            have := filter_map_range_length
              (profileRowFor (df.zip (labels.map Fin.val)))
              (fun x => rfl) (List.range K) (List.nodup_range K) r.2
              (List.mem_range.mpr hrK)
            simpa [profileRows] using this

/-- The four-row gold input of the C6 witness. -/
def dfW : List GoldRow := [gRow1, gRow2, gRow3, gRow4]

/-- The database state a successful four-row run produces. -/
def dbRunResult : DB :=
  { ft_scr_segmentos_clusters := dfW.zip (lbl4.map Fin.val)
    dim_cluster_profiles := profileRows 4 (dfW.zip (lbl4.map Fin.val)) }

/-- C6 witness: a concrete successful run over four rows with labels
0,1,2,3 — four profile rows with ids 0..3, four distinct assigned ids,
and the id assigned to the first row matches exactly one profile row. -/
theorem profile_coverage_witness :
    dbRunResult.dim_cluster_profiles.length = 4 ∧
    dbRunResult.dim_cluster_profiles.map (fun p => p.cluster_id) = List.range 4 ∧
    (dbRunResult.ft_scr_segmentos_clusters.map Prod.snd).toFinset.card
      = dbRunResult.dim_cluster_profiles.length ∧
    (dbRunResult.dim_cluster_profiles.filter
      (fun p => p.cluster_id = (gRow1, 0).2)).length = 1 := by
  have h := profile_coverage 4 lbl4 dfW dbPrior dbRunResult
    (by decide) (by decide) (by decide)
  exact ⟨h.1, h.2.1, h.2.2.1, h.2.2.2 (gRow1, 0) (by decide)⟩

/-! ## The categorical tie-break of the cluster profiles -/

theorem charListLt_irrefl (cs : List Char) : charListLt cs cs = false := by
  induction cs with
  | nil => rfl
  | cons a as ih => simp [charListLt, ih]

theorem charListLt_trans (a : List Char) : ∀ b c : List Char,
    charListLt a b = true → charListLt b c = true → charListLt a c = true := by
  induction a with
  | nil =>
      intro b c hab hbc
      cases b with
      | nil => simp [charListLt] at hab
      | cons y ys =>
          cases c with
          | nil => simp [charListLt] at hbc
          | cons z zs => simp [charListLt]
  | cons x xs ih =>
      intro b c hab hbc
      cases b with
      | nil => simp [charListLt] at hab
      | cons y ys =>
          cases c with
          | nil => simp [charListLt] at hbc
          | cons z zs =>
              simp only [charListLt] at hab hbc ⊢
              by_cases hxy : x = y
              · subst hxy
                rw [if_pos rfl] at hab
                by_cases hxz : x = z
                · subst hxz
                  rw [if_pos rfl] at hbc ⊢
                  exact ih ys zs hab hbc
                · rw [if_neg hxz] at hbc ⊢
                  exact hbc
              · rw [if_neg hxy] at hab
                by_cases hyz : y = z
                · subst hyz
                  rw [if_neg hxy]
                  exact hab
                · rw [if_neg hyz] at hbc
                  have h1 := of_decide_eq_true hab
                  have h2 := of_decide_eq_true hbc
                  have h3 : x.toNat < z.toNat := Nat.lt_trans h1 h2
                  have hxz : ¬ (x = z) := fun h => absurd (h ▸ h3) (Nat.lt_irrefl _)
                  rw [if_neg hxz]
                  exact decide_eq_true h3

theorem minString_mem (xs : List String) : ∀ m : String,
    minString xs = some m → m ∈ xs := by
  induction xs with
  | nil => intro m h; simp [minString] at h
  | cons x t ih =>
      intro m h
      cases h' : minString t with
      | none =>
          simp only [minString, h', Option.some.injEq] at h
          exact h ▸ List.mem_cons_self x t
      | some m' =>
          simp only [minString, h', Option.some.injEq] at h
          by_cases hlt : charListLt x.data m'.data = true
          · rw [if_pos hlt] at h
            exact h ▸ List.mem_cons_self x t
          · rw [if_neg hlt] at h
            exact h ▸ List.mem_cons_of_mem x (ih m' h')

theorem minString_not_lt (xs : List String) : ∀ m : String,
    minString xs = some m →
    ∀ v ∈ xs, charListLt v.data m.data = false := by
  induction xs with
  | nil => intro m h; simp [minString] at h
  | cons x t ih =>
      intro m h v hv
      cases h' : minString t with
      | none =>
          have ht : t = [] := by
            cases t with
            | nil => rfl
            | cons a s => simp [minString] at h'
          subst ht
          simp only [minString, Option.some.injEq] at h
          rcases List.mem_cons.mp hv with rfl | hvt
          · exact h ▸ charListLt_irrefl _
          · simp at hvt
      | some m' =>
          simp only [minString, h', Option.some.injEq] at h
          rcases List.mem_cons.mp hv with rfl | hvt
          · by_cases hlt : charListLt v.data m'.data = true
            · rw [if_pos hlt] at h
              exact h ▸ charListLt_irrefl _
            · rw [if_neg hlt] at h
              subst h
              exact Bool.eq_false_iff.mpr hlt
          · have hnot := ih m' h' v hvt
            by_cases hlt : charListLt x.data m'.data = true
            · rw [if_pos hlt] at h
              subst h
              cases hb : charListLt v.data x.data with
              | false => rfl
              | true =>
                  have := charListLt_trans _ _ _ hb hlt
                  rw [this] at hnot
                  exact Bool.noConfusion hnot
            · rw [if_neg hlt] at h
              subst h
              exact hnot

theorem foldr_max_mem (l : List ℕ) : l ≠ [] → l.foldr max 0 ∈ l := by
  induction l with
  | nil => intro h; exact absurd rfl h
  | cons x t ih =>
      intro _
      cases t with
      | nil => simp
      | cons y s =>
          rcases max_choice x ((y :: s).foldr max 0) with h | h
          · rw [List.foldr_cons, h]
            exact List.mem_cons_self _ _
          · rw [List.foldr_cons, h]
            exact List.mem_cons_of_mem _ (ih (by simp))

theorem maxCount_attained (xs : List String) (h : xs ≠ []) :
    ∃ v ∈ uniqueInOrder xs, countIn xs v = maxCount xs := by
  have hne : uniqueInOrder xs ≠ [] := by
    cases xs with
    | nil => exact absurd rfl h
    | cons a t => simp [uniqueInOrder]
  have hmapne : (uniqueInOrder xs).map (countIn xs) ≠ [] := by
    simp only [ne_eq, List.map_eq_nil_iff]
    exact hne
  rcases List.mem_map.mp (foldr_max_mem _ hmapne) with ⟨v, hv, hveq⟩
  exact ⟨v, hv, hveq⟩

theorem modeCandidates_ne_nil (xs : List String) (h : xs ≠ []) :
    modeCandidates xs ≠ [] := by
  rcases maxCount_attained xs h with ⟨v, hv, hc⟩
  have hvm : v ∈ modeCandidates xs :=
    List.mem_filter.mpr ⟨hv, by simp [hc]⟩
  exact List.ne_nil_of_mem hvm

/-- C10 amended: the profile row of each cluster id stores, per
categorical column, pandas `x.mode()[0]` over the member rows — which is
a *most frequent* value, but on ties the *smallest* value in code-point
order, not the first-encountered one (pandas `Series.mode()` returns the
tied values sorted ascending).  A nonempty member list always yields
some mode. -/
theorem categorical_mode_tiebreak (K cid : ℕ) (assigned : List (GoldRow × ℕ))
    (hc : cid < K) :
    ((profileRows K assigned)[cid]? = some (profileRowFor assigned cid) ∧
      (profileRowFor assigned cid).uf
        = pandasModeHead ((clusterMembers assigned cid).map (fun r => r.uf))) ∧
    (∀ (xs : List String) (m : String), pandasModeHead xs = some m →
      countIn xs m = maxCount xs ∧
      ∀ v ∈ modeCandidates xs, charListLt v.data m.data = false) ∧
    (∀ xs : List String, xs ≠ [] → ∃ m, pandasModeHead xs = some m) := by
  refine ⟨⟨?_, rfl⟩, ?_, ?_⟩
  · simp [profileRows, List.getElem?_map, List.getElem?_range, hc]
  · intro xs m h
    have hmem : m ∈ modeCandidates xs := minString_mem _ _ h
    have hcount : countIn xs m = maxCount xs := by
      have := (List.mem_filter.mp hmem).2
      simpa using this
    exact ⟨hcount, minString_not_lt _ _ h⟩
  · intro xs hxs
    show ∃ m, minString (modeCandidates xs) = some m
    cases hm : modeCandidates xs with
    | nil => exact absurd hm (modeCandidates_ne_nil xs hxs)
    | cons a t => exact ⟨_, rfl⟩

/-- Two gold rows differing only in `uf`, used to exhibit the tie. -/
def gUfA : GoldRow := { gRow1 with uf := "a" }

def gUfB : GoldRow := { gRow1 with uf := "b" }

/-- C10 counterexample: cluster 0 has two member rows with `uf` values
"b" then "a" — a tie (one occurrence each).  First-encountered order
would pick "b", but the source stores `x.mode()[0]` = "a" (the smallest
of the sorted tied values): the claimed tie-break is refuted. -/
theorem categorical_mode_counterexample :
    (clusterMembers [(gUfB, 0), (gUfA, 0)] 0).map (fun r => r.uf) = ["b", "a"] ∧
    (profileRows 4 [(gUfB, 0), (gUfA, 0)])[0]?
      = some (profileRowFor [(gUfB, 0), (gUfA, 0)] 0) ∧
    (profileRowFor [(gUfB, 0), (gUfA, 0)] 0).uf = some "a" ∧
    firstEncounteredMode ["b", "a"] = some "b" ∧
    (some "a" : Option String) ≠ some "b" := by
  refine ⟨by decide, by decide, by decide, by decide, by decide⟩

/-- C10 amended witness: on the concrete tied column ["b", "a"] the
stored mode is "a", it attains the maximal count, and the other tied
candidate "b" is not below it in code-point order. -/
theorem categorical_mode_tiebreak_witness :
    pandasModeHead ["b", "a"] = some "a" ∧
    countIn ["b", "a"] "a" = maxCount ["b", "a"] ∧
    charListLt ("b").data ("a").data = false := by
  have h := (categorical_mode_tiebreak 4 0 [(gUfB, 0), (gUfA, 0)]
    (by decide)).2.1 ["b", "a"] "a" (by decide)
  exact ⟨by decide, h.1, h.2 "b" (by decide)⟩

end CredTech
